import Mathlib

/-!
Verification development for the pinchy operator dashboard.

This file embeds the realtime chat reconciliation layer of the repository:

* `src/web/src/routes/chat.tsx` — the React chat view (transcript merger,
  dedup keys, WebSocket event handler, streaming reveal loop, send path);
* `src/static/views/chat.js` — the static chat view (dedup keys with the
  30-second optimistic window, timestamp normalisation, markdown escaping);
* `src/static/app.js` — the shared socket command sender.

JavaScript strings are modelled as Lean `String`s (operating on `String.data`
so everything reduces in the kernel), JS numbers that hold epoch timestamps
as `Nat`, and nullable / optional fields as `Option`.  JS truthiness of a
string is `≠ ""`, of a number `≠ 0`, of an optional value `Option.isSome`
combined with the above.  React state plus the mutable refs of the chat view
are collected into one explicit state record, and every event handler is a
pure state-transition function.
-/

namespace Pinchy

/-! ### JS string helpers -/

/-- JS `s.slice(0, n)`. -/
def strTake (n : Nat) (s : String) : String := ⟨s.data.take n⟩

/-- JS `s.length`. -/
def strLen (s : String) : Nat := s.data.length

/-- Whitespace characters relevant to `String.prototype.trim` for the
    content handled here. -/
def isJsSpace (c : Char) : Bool := c = ' ' || c = '\t' || c = '\n' || c = '\r'

/-- JS `s.trim()`. -/
def jsTrim (s : String) : String :=
  ⟨((s.data.dropWhile isJsSpace).reverse.dropWhile isJsSpace).reverse⟩

/-- JS `toText(v)` for a nullable string (it collapses
    `null`/`undefined` to `""`; objects arrive already serialised). -/
def toText (v : Option String) : String := v.getD ""

/-- JS truthy-or: `a || b` on nullable strings (`""` is falsy). -/
def orTruthy (a b : Option String) : Option String :=
  match a with
  | some s => if s = "" then b else some s
  | none => b

/-! ### Messages and dedup keys (`src/web/src/routes/chat.tsx`) -/

/-- The `LiveMessage` record of chat.tsx: `{ role, content, timestamp }`. -/
structure LiveMessage where
  role : String
  content : String
  timestamp : Nat
deriving DecidableEq, Repr

/-- A persisted message as fetched over REST (`SessionMessage`): every field
    may be absent. -/
structure SessionMessage where
  role : Option String
  content : Option String
  timestamp : Option Nat
deriving DecidableEq, Repr

/-- chat.tsx `messageBaseKey(role, content)`:
    `` `${role ?? "assistant"}|${toText(content).slice(0, 200)}` ``. -/
def messageBaseKey (role : Option String) (content : String) : String :=
  role.getD "assistant" ++ "|" ++ strTake 200 content

/-- chat.tsx `messageKey(role, content, timestamp)`: appends `|timestamp`
    only when the timestamp is truthy (present and non-zero). -/
def messageKey (role : Option String) (content : String) (timestamp : Option Nat) : String :=
  match timestamp with
  | some t => if t = 0 then messageBaseKey role content
              else messageBaseKey role content ++ "|" ++ toString t
  | none => messageBaseKey role content

/-- The exact dedup key of a live message, as computed inside `allMessages`. -/
def liveKey (m : LiveMessage) : String := messageKey (some m.role) m.content (some m.timestamp)

/-- The fallback base key of a live message, as computed inside `allMessages`. -/
def liveBaseKey (m : LiveMessage) : String := messageBaseKey (some m.role) m.content

/-- chat.tsx `normalizeMessage`: defaults the role to `"assistant"`, collapses
    missing content to `""`, and substitutes `Date.now()` for a non-numeric
    timestamp.  Note that it performs no seconds/milliseconds conversion. -/
def normalizeMessage (now : Nat) (m : SessionMessage) : LiveMessage :=
  ⟨m.role.getD "assistant", toText m.content, m.timestamp.getD now⟩

/-- The REST filter in `allMessages`:
    `m.role && m.content !== undefined && m.content !== null && m.content !== ""`. -/
def keepPersisted (m : SessionMessage) : Bool :=
  (m.role.getD "" ≠ "") && (match m.content with | some c => c ≠ "" | none => false)

/-- The normalised persisted list feeding the merge. -/
def persistedOf (now : Nat) (raw : List SessionMessage) : List LiveMessage :=
  (raw.filter keepPersisted).map (normalizeMessage now)

/-- The core of chat.tsx `allMessages` on already-normalised inputs:
    empty persisted ⇒ live; empty live ⇒ persisted; otherwise persisted
    followed by the live messages whose exact key and base key are both
    absent from the persisted key sets. -/
def mergeLive (persisted live : List LiveMessage) : List LiveMessage :=
  if persisted.isEmpty then live
  else if live.isEmpty then persisted
  else persisted ++ live.filter fun m =>
    !((persisted.map liveKey).contains (liveKey m)) &&
    !((persisted.map liveBaseKey).contains (liveBaseKey m))

/-- chat.tsx `allMessages`: filter and normalise the REST messages, then merge
    the live list into them. -/
def allMessages (now : Nat) (raw : List SessionMessage) (live : List LiveMessage) :
    List LiveMessage :=
  mergeLive (persistedOf now raw) live

theorem contains_map_of_mem {α β : Type} [BEq β] [LawfulBEq β] (f : α → β) {l : List α}
    {a : α} (h : a ∈ l) : (l.map f).contains (f a) = true := by
  simp only [List.contains, List.elem_eq_mem, decide_eq_true_eq]
  exact List.mem_map_of_mem f h

/-- C1.  The effective transcript is: live when the (filtered, normalised)
persisted list is empty; persisted when live is empty; otherwise persisted
followed, in order, by exactly the live messages whose exact key and base key
both do not occur among the persisted key sets. -/
theorem allMessages_merge_correct (now : Nat) (raw : List SessionMessage)
    (live : List LiveMessage) :
    (persistedOf now raw = [] → allMessages now raw live = live) ∧
    (live = [] → allMessages now raw live = persistedOf now raw) ∧
    (persistedOf now raw ≠ [] → live ≠ [] →
      allMessages now raw live = persistedOf now raw ++ live.filter fun m =>
        decide (liveKey m ∉ (persistedOf now raw).map liveKey) &&
        decide (liveBaseKey m ∉ (persistedOf now raw).map liveBaseKey)) := by
  refine ⟨fun h => ?_, fun h => ?_, fun h1 h2 => ?_⟩
  · simp [allMessages, mergeLive, h]
  · rw [allMessages, mergeLive, h]
    split
    · next hemp => rw [List.isEmpty_iff.mp hemp]
    · simp
  · rw [allMessages, mergeLive, if_neg (by simp [h1]), if_neg (by simp [h2])]
    refine congrArg (persistedOf now raw ++ ·) (List.filter_congr fun m _ => ?_)
    simp only [List.contains, List.elem_eq_mem, decide_not]

/-- C3.  Merging the live list into the result of a previous merge changes
nothing: re-running the merge never duplicates an entry. -/
theorem merge_idempotent (P L : List LiveMessage) :
    mergeLive (mergeLive P L) L = mergeLive P L := by
  by_cases hL : L = []
  · subst hL
    have h1 : ∀ Q : List LiveMessage, mergeLive Q [] = Q := by
      intro Q
      by_cases hQ : Q = []
      · subst hQ; rfl
      · simp [mergeLive, hQ]
    rw [h1, h1]
  · by_cases hP : P = []
    · subst hP
      have h0 : mergeLive [] L = L := by simp [mergeLive]
      rw [h0, mergeLive, if_neg (by simp [hL]), if_neg (by simp [hL])]
      have hfil : (L.filter fun m =>
          !(L.map liveKey).contains (liveKey m) &&
          !(L.map liveBaseKey).contains (liveBaseKey m)) = [] := by
        refine List.filter_eq_nil_iff.mpr fun m hm => ?_
        intro hc
        rw [Bool.and_eq_true] at hc
        have h1 := hc.1
        simp at h1
        exact h1 m hm rfl
      rw [hfil, List.append_nil]
    · have hMeq : mergeLive P L = P ++ L.filter fun m =>
          !(P.map liveKey).contains (liveKey m) &&
          !(P.map liveBaseKey).contains (liveBaseKey m) := by
        rw [mergeLive, if_neg (by simp [hP]), if_neg (by simp [hL])]
      set M := P ++ L.filter fun m =>
        !(P.map liveKey).contains (liveKey m) &&
        !(P.map liveBaseKey).contains (liveBaseKey m) with hM
      have hMne : M ≠ [] := by
        rw [hM]
        intro hc
        exact hP (List.append_eq_nil.mp hc).1
      rw [hMeq, mergeLive, if_neg (by simp [hMne]), if_neg (by simp [hL])]
      have hfil : (L.filter fun m =>
          !(M.map liveKey).contains (liveKey m) &&
          !(M.map liveBaseKey).contains (liveBaseKey m)) = [] := by
        refine List.filter_eq_nil_iff.mpr fun m hm => ?_
        intro hc
        rw [Bool.and_eq_true] at hc
        by_cases hpm : (!(P.map liveKey).contains (liveKey m) &&
            !(P.map liveBaseKey).contains (liveBaseKey m)) = true
        · have hmem : m ∈ M := by
            rw [hM]
            exact List.mem_append_right _ (List.mem_filter.mpr ⟨hm, hpm⟩)
          have h2 := hc.2
          simp at h2
          exact h2 m hmem rfl
        · have hor : (P.map liveKey).contains (liveKey m) = true ∨
              (P.map liveBaseKey).contains (liveBaseKey m) = true := by
            rcases Bool.eq_false_or_eq_true ((P.map liveKey).contains (liveKey m)) with h | h
            · exact Or.inl h
            · rcases Bool.eq_false_or_eq_true
                  ((P.map liveBaseKey).contains (liveBaseKey m)) with h' | h'
              · exact Or.inr h'
              · refine absurd ?_ hpm
                simp at h h' ⊢
                exact ⟨h, h'⟩
          rcases hor with h | h
          · have h1 := hc.1
            simp at h1 h
            obtain ⟨x, hx, hxe⟩ := h
            exact h1 x (List.mem_append_left _ hx) hxe
          · have h2 := hc.2
            simp at h2 h
            obtain ⟨x, hx, hxe⟩ := h
            exact h2 x (List.mem_append_left _ hx) hxe
      rw [hfil, List.append_nil]

def c1RawEx : List SessionMessage := [⟨some "user", some "hi", some 5⟩]

def c1LiveEx : List LiveMessage := [⟨"user", "hi", 5⟩, ⟨"assistant", "yo", 6⟩]

/-- Witness for C1: the merge equation evaluated at a concrete non-empty
persisted list and non-empty live list. -/
theorem allMessages_merge_correct_witness :
    allMessages 0 c1RawEx c1LiveEx = persistedOf 0 c1RawEx ++ c1LiveEx.filter fun m =>
      decide (liveKey m ∉ (persistedOf 0 c1RawEx).map liveKey) &&
      decide (liveBaseKey m ∉ (persistedOf 0 c1RawEx).map liveBaseKey) :=
  (allMessages_merge_correct 0 c1RawEx c1LiveEx).2.2 (by decide) (by decide)

/-! ### Wire events (`GatewayEvent` in chat.tsx) -/

/-- One entry of `payload.tool_calls`. -/
structure ToolCallField where
  tool : Option String := none
  success : Option Bool := none
  duration_ms : Option Nat := none
  args_summary : Option String := none
  error : Option String := none
deriving DecidableEq, Repr

/-- The `payload.tokens` field. -/
structure TokensField where
  prompt_tokens : Option Nat := none
  completion_tokens : Option Nat := none
  total_tokens : Option Nat := none
deriving DecidableEq, Repr

/-- The raw inbound event shape of chat.tsx (`GatewayEvent`): every field is
optional, matching the duck-typed wire object. -/
structure GatewayEvent where
  type : Option String := none
  agents : Option (List String) := none
  agent : Option String := none
  agent_id : Option String := none
  session : Option String := none
  session_id : Option String := none
  role : Option String := none
  content : Option String := none
  message : Option String := none
  response : Option String := none
  error : Option String := none
  delta : Option String := none
  done : Option Bool := none
  tool : Option String := none
  timestamp : Option Nat := none
  tokens : Option TokensField := none
  duration_ms : Option Nat := none
  model_calls : Option Nat := none
  tool_calls : Option (List ToolCallField) := none
deriving DecidableEq, Repr

/-! ### Chat view state (chat.tsx React state plus refs) -/

inductive ActivityKind where
  | tool
  | receipt
  | info
  | error
deriving DecidableEq, Repr

structure ActivityItem where
  text : String
  timestamp : Nat
  kind : ActivityKind
deriving DecidableEq, Repr

structure ToolSummary where
  tool : String
  success : Bool
  durationMs : Option Nat
deriving DecidableEq, Repr

structure ToolCallItem where
  name : String
  args : String
  success : Bool
  duration : Nat
  error : Option String
deriving DecidableEq, Repr

structure ReceiptItem where
  timestamp : Nat
  promptTokens : Nat
  completionTokens : Nat
  totalTokens : Nat
  durationMs : Option Nat
  modelCalls : Option Nat
  tools : List ToolSummary
  toolCalls : List ToolCallItem
deriving DecidableEq, Repr

/-- The other-session banner: `otherSession` state plus whether the code armed
the 6-second auto-clear timer for it (terminal events only). -/
structure OtherBanner where
  id : String
  detail : String
  autoClear : Bool
deriving DecidableEq, Repr

/-- All per-session state of the chat view: the React `useState` values and
the mutable refs that the WebSocket handler and reveal loop touch.
`pendingFinalize` holds the content captured by the pending finalization
closure, `revealedLen` is `revealedLenRef`, `streamBuffer` is
`streamBufferRef` (kept in sync with the `streamBuffer` state). -/
structure ChatState where
  liveMessages : List LiveMessage
  activityItems : List ActivityItem
  receipts : List ReceiptItem
  seenKeys : List String
  streamBuffer : String
  revealedLen : Nat
  displayedStream : String
  isStreaming : Bool
  pendingFinalize : Option String
  typing : Bool
  typingLabel : String
  otherSession : Option OtherBanner
deriving DecidableEq, Repr

/-- The initial values of the chat view's state and refs. -/
def initChatState : ChatState :=
  { liveMessages := []
    activityItems := []
    receipts := []
    seenKeys := []
    streamBuffer := ""
    revealedLen := 0
    displayedStream := ""
    isStreaming := false
    pendingFinalize := none
    typing := false
    typingLabel := "Thinking…"
    otherSession := none }

/-- JS `Set.add` on the seen-keys table (adding an existing key is a no-op). -/
def addKey (k : String) (l : List String) : List String :=
  if l.contains k then l else l ++ [k]

/-- chat.tsx `appendActivity`: keep the last 199 items, then append. -/
def appendActivity (items : List ActivityItem) (text : String) (kind : ActivityKind)
    (now : Nat) : List ActivityItem :=
  items.drop (items.length - 199) ++ [⟨text, now, kind⟩]

/-- The pending finalization closure captured in the `stream_delta` branch:
if the captured (trimmed) content is non-empty, register its keys and append
it to the live list; then clear both buffers, the reveal counter and the
typing flag. -/
def runFinalize (now : Nat) (s : ChatState) : ChatState :=
  match s.pendingFinalize with
  | none => s
  | some content =>
    let s1 := if content ≠ "" then
        { s with
          seenKeys := addKey (messageBaseKey (some "assistant") content)
            (addKey (messageKey (some "assistant") content (some now)) s.seenKeys)
          liveMessages := s.liveMessages ++ [⟨"assistant", content, now⟩] }
      else s
    { s1 with
      streamBuffer := ""
      revealedLen := 0
      displayedStream := ""
      typing := false
      pendingFinalize := none }

/-- The `detail` string computed in the other-session branch of
`ws.onmessage`. -/
def otherSessionDetail (t : String) (e : GatewayEvent) : String :=
  if t = "tool_start" then "running " ++ e.tool.getD "tool"
  else if t = "stream_delta" then "responding..."
  else if t = "typing_start" then "thinking..."
  else if t = "turn_receipt" then "completed turn"
  else "working..."

/-- Whether the other-session branch arms the 6-second auto-clear timer
(terminal events only). -/
def otherSessionTerminal (t : String) (e : GatewayEvent) : Bool :=
  t = "turn_receipt" || t = "typing_stop" || (t = "stream_delta" && e.done = some true)

/-- Receipt normalisation in the `turn_receipt` branch of `ws.onmessage`. -/
def mkReceiptItem (now : Nat) (e : GatewayEvent) : ReceiptItem :=
  { timestamp := now
    promptTokens := (e.tokens.bind (·.prompt_tokens)).getD 0
    completionTokens := (e.tokens.bind (·.completion_tokens)).getD 0
    totalTokens := (e.tokens.bind (·.total_tokens)).getD 0
    durationMs := e.duration_ms
    modelCalls := e.model_calls
    tools := (e.tool_calls.getD []).map fun c =>
      ⟨c.tool.getD "tool", c.success.getD true, c.duration_ms⟩
    toolCalls := (e.tool_calls.getD []).map fun c =>
      ⟨c.tool.getD "unknown", c.args_summary.getD "", c.success.getD true,
        c.duration_ms.getD 0, c.error⟩ }

/-- The `ws.onmessage` handler of chat.tsx as a state transition.
`selectedAgent` / `selectedSession` are the current values of
`selectedAgentRef` / `selectedSessionRef`; `now` is `Date.now()`.
Query invalidations, scrolling and timers are external effects; the
banner's auto-clear timer is folded into `OtherBanner.autoClear`. -/
def handleEvent (selectedAgent selectedSession : String) (now : Nat)
    (s : ChatState) (e : GatewayEvent) : ChatState :=
  let t := e.type.getD ""
  if t = "" then s
  else if t = "agent_list" ∧ e.agents.isSome = true then s
  else if (e.agent <|> e.agent_id).getD "" ≠ selectedAgent then s
  else
    if (e.session <|> e.session_id).getD "" ≠ "" ∧ selectedSession ≠ "" ∧
        (e.session <|> e.session_id).getD "" ≠ selectedSession then
      { s with otherSession := some (OtherBanner.mk ((e.session <|> e.session_id).getD "")
          (otherSessionDetail t e) (otherSessionTerminal t e)) }
    else if t = "session_created" then
      { s with activityItems := appendActivity s.activityItems "Session rotated" .info now }
    else if t = "typing_start" then
      { s with typing := true, typingLabel := "Thinking…" }
    else if t = "typing_stop" then
      { s with typing := false, typingLabel := "Thinking…" }
    else if t = "tool_start" then
      { s with typing := true, typingLabel := "Running " ++ e.tool.getD "tool" ++ "…"
               activityItems := appendActivity s.activityItems
                 ("Tool start: " ++ e.tool.getD "tool") .tool now }
    else if t = "tool_end" then
      { s with typing := true, typingLabel := "Thinking…"
               activityItems := appendActivity s.activityItems
                 ("Tool done: " ++ e.tool.getD "tool") .tool now }
    else if t = "tool_error" then
      { s with typing := true, typingLabel := "Tool error…"
               activityItems := appendActivity s.activityItems
                 ("Tool error: " ++ e.tool.getD "tool" ++ " (" ++
                   toText (orTruthy e.error e.message) ++ ")") .error now }
    else if t = "stream_delta" then
      let s1 := match e.delta with
        | some d => if d ≠ "" then
            { s with streamBuffer := s.streamBuffer ++ d, isStreaming := true }
          else s
        | none => s
      if e.done = some true then
        let content := jsTrim s1.streamBuffer
        let s2 := { s1 with isStreaming := false, pendingFinalize := some content }
        if s1.streamBuffer = "" then runFinalize now s2 else s2
      else s1
    else if t = "session_message" then
      let role := e.role.getD "assistant"
      let content := toText (e.content <|> e.message <|> e.response)
      let key := messageKey (some role) content e.timestamp
      let baseKey := messageBaseKey (some role) content
      if s.seenKeys.contains key ∨ s.seenKeys.contains baseKey then s
      else
        { s with
          seenKeys := addKey baseKey (addKey key s.seenKeys)
          liveMessages := s.liveMessages ++ [⟨role, content, e.timestamp.getD now⟩] }
    else if t = "slash_response" then
      { s with typing := false
               liveMessages := s.liveMessages ++
                 [⟨"system", toText (e.response <|> e.content), now⟩]
               activityItems := appendActivity s.activityItems
                 "Slash command completed" .info now }
    else if t = "slash_error" then
      { s with typing := false
               liveMessages := s.liveMessages ++
                 [⟨"system", "Error: " ++ toText (e.error <|> e.content), now⟩]
               activityItems := appendActivity s.activityItems
                 "Slash command failed" .error now }
    else if t = "turn_receipt" then
      { s with receipts := s.receipts.drop (s.receipts.length - 39) ++ [mkReceiptItem now e] }
    else s

/-- One iteration of the character-reveal loop (`tick` in chat.tsx):
reveal up to `CHARS_PER_FRAME = 3` further characters; once the reveal has
caught up and streaming has stopped, run the pending finalization. -/
def tick (now : Nat) (s : ChatState) : ChatState :=
  if s.revealedLen < strLen s.streamBuffer then
    let r := min (s.revealedLen + 3) (strLen s.streamBuffer)
    { s with revealedLen := r, displayedStream := strTake r s.streamBuffer }
  else if s.isStreaming = false ∧ 0 < strLen s.streamBuffer then
    runFinalize now s
  else s

/-- The session-switch reset effect of chat.tsx (the `useEffect` keyed on
`[selectedAgent, selectedSession]`). -/
def resetSessionState (s : ChatState) : ChatState :=
  { s with
    liveMessages := []
    activityItems := []
    receipts := []
    seenKeys := []
    streamBuffer := ""
    revealedLen := 0
    isStreaming := false
    pendingFinalize := none
    displayedStream := ""
    typing := false
    typingLabel := "Thinking…"
    otherSession := none }

/-- A `client_command` frame sent over the socket. -/
structure ClientFrame where
  type : String
  command : String
  target_agent : String
deriving DecidableEq, Repr

/-- Result of a send attempt: the new view state, the new draft, the frames
transmitted and the user-visible notices produced. -/
structure SendResult where
  state : ChatState
  draft : String
  frames : List ClientFrame
  notices : List String
deriving DecidableEq, Repr

/-- chat.tsx `sendMessage`: trims the draft; silently returns when the draft
is empty or the socket is not open; otherwise transmits the command,
registers the optimistic message for dedup, appends it and clears the
draft.  It produces no user-visible notice in either case. -/
def sendMessageTsx (wsOpen : Bool) (now : Nat) (selectedAgent draft : String)
    (s : ChatState) : SendResult :=
  let content := jsTrim draft
  if content = "" ∨ wsOpen = false then ⟨s, draft, [], []⟩
  else
    ⟨{ s with
        seenKeys := addKey (messageBaseKey (some "user") content)
          (addKey (messageKey (some "user") content none) s.seenKeys)
        liveMessages := s.liveMessages ++ [⟨"user", content, now⟩]
        typing := true
        typingLabel := "Thinking…" },
      "", [⟨"client_command", content, selectedAgent⟩], []⟩

/-- Helper for the React half of session isolation: in chat.tsx, an event for
the selected agent that is tagged with a session different from the viewed one
changes nothing but the other-session banner — no message is appended and no
stream, typing, receipt, activity or dedup state of the viewed session moves;
the banner is set to that session id with a detail derived from the event
kind.  (Events with no `type`, and `agent_list` events, never reach the
session router.) -/
theorem session_isolation (selectedAgent selectedSession : String) (now : Nat)
    (s : ChatState) (e : GatewayEvent) (t es : String)
    (htype : e.type = some t) (ht : t ≠ "")
    (hlist : ¬ (t = "agent_list" ∧ e.agents.isSome = true))
    (hagent : (e.agent <|> e.agent_id).getD "" = selectedAgent)
    (hses : (e.session <|> e.session_id).getD "" = es) (hes : es ≠ "")
    (hcur : selectedSession ≠ "") (hne : es ≠ selectedSession) :
    handleEvent selectedAgent selectedSession now s e =
      { s with otherSession := some (OtherBanner.mk es
          (otherSessionDetail t e) (otherSessionTerminal t e)) } := by
  rw [handleEvent]
  simp only [htype, Option.getD_some]
  rw [if_neg ht, if_neg hlist, if_neg (not_not_intro hagent), hses,
    if_pos ⟨hes, hcur, hne⟩]

def c2Event : GatewayEvent :=
  { type := some "stream_delta", agent := some "a", session := some "B", delta := some "x" }

def c4Agent : String := "pinchy"

def c4Session : String := "sess-1"

def c4DeltaEv (d : String) : GatewayEvent :=
  { type := some "stream_delta", agent := some c4Agent, session := some c4Session,
    delta := some d }

def c4DoneEv : GatewayEvent :=
  { type := some "stream_delta", agent := some c4Agent, session := some c4Session,
    done := some true }

/-- The state after the deltas `"Hel"`, `"lo"` and the done marker. -/
def c4AfterDone : ChatState :=
  handleEvent c4Agent c4Session 300
    (handleEvent c4Agent c4Session 200
      (handleEvent c4Agent c4Session 100 initChatState (c4DeltaEv "Hel"))
      (c4DeltaEv "lo"))
    c4DoneEv

/-- C4.  After deltas `"Hel"`, `"lo"` and the done marker, the buffer holds
`"Hello"` and a finalization for exactly `"Hello"` is pending but has not
run; the first two reveal ticks move the revealed length to 3 and then 5
without finalizing; only the tick that starts with the revealed length at 5
(the full buffer length) emits the assistant message, registers its dedup
keys, and clears both buffers. -/
theorem finalize_ordering_hello :
    c4AfterDone.streamBuffer = "Hello" ∧
    c4AfterDone.pendingFinalize = some "Hello" ∧
    c4AfterDone.isStreaming = false ∧
    c4AfterDone.liveMessages = [] ∧
    c4AfterDone.revealedLen = 0 ∧
    strLen c4AfterDone.streamBuffer = 5 ∧
    (tick 400 c4AfterDone).revealedLen = 3 ∧
    (tick 400 c4AfterDone).liveMessages = [] ∧
    (tick 500 (tick 400 c4AfterDone)).revealedLen = 5 ∧
    (tick 500 (tick 400 c4AfterDone)).liveMessages = [] ∧
    (tick 600 (tick 500 (tick 400 c4AfterDone))).liveMessages =
      [⟨"assistant", "Hello", 600⟩] ∧
    (tick 600 (tick 500 (tick 400 c4AfterDone))).seenKeys =
      ["assistant|Hello|600", "assistant|Hello"] ∧
    (tick 600 (tick 500 (tick 400 c4AfterDone))).streamBuffer = "" ∧
    (tick 600 (tick 500 (tick 400 c4AfterDone))).displayedStream = "" ∧
    (tick 600 (tick 500 (tick 400 c4AfterDone))).pendingFinalize = none := by
  decide

/-- C7.  During a streaming turn (streaming still active, or the reveal still
catching up), a reveal tick never decreases the revealed length and never
lets it exceed the accumulated full-text length. -/
theorem reveal_monotone (now : Nat) (s : ChatState)
    (hinv : s.revealedLen ≤ strLen s.streamBuffer)
    (hturn : s.isStreaming = true ∨ s.revealedLen < strLen s.streamBuffer) :
    s.revealedLen ≤ (tick now s).revealedLen ∧
    (tick now s).revealedLen ≤ strLen (tick now s).streamBuffer := by
  rw [tick]
  by_cases hlt : s.revealedLen < strLen s.streamBuffer
  · rw [if_pos hlt]
    exact ⟨le_min (Nat.le_add_right _ 3) (Nat.le_of_lt hlt), min_le_right _ _⟩
  · rw [if_neg hlt]
    have hstr : s.isStreaming = true := hturn.resolve_right hlt
    rw [if_neg (by rw [hstr]; rintro ⟨h, -⟩; cases h)]
    exact ⟨Nat.le_refl _, hinv⟩

def c7State : ChatState :=
  { initChatState with streamBuffer := "Hello", revealedLen := 1, isStreaming := true }

/-- Witness for C7 at a concrete mid-stream state. -/
theorem reveal_monotone_witness :
    c7State.revealedLen ≤ (tick 0 c7State).revealedLen ∧
    (tick 0 c7State).revealedLen ≤ strLen (tick 0 c7State).streamBuffer :=
  reveal_monotone 0 c7State (by decide) (Or.inl (by decide))

/-! ### Static chat view (`src/static/views/chat.js`) and `src/static/app.js` -/

/-- A message rendered into the static chat's message area. -/
structure RenderedMsg where
  role : String
  content : String
  timestamp : Option Nat
deriving DecidableEq, Repr

/-- The dedup state of the static chat view: the rendered transcript, the
`seenMessages` signature set and the `pendingDedup` content-key table. -/
structure StaticChatState where
  rendered : List RenderedMsg
  seenMessages : List String
  pendingDedup : List (String × Nat)
deriving DecidableEq, Repr

def staticInit : StaticChatState := ⟨[], [], []⟩

/-- JS `(v || "")` on a nullable string. -/
def jsOrEmpty (v : Option String) : String := v.getD ""

/-- JS `(v || d)` on a nullable string with a non-empty default. -/
def orTruthyS (v : Option String) (d : String) : String :=
  match v with
  | some x => if x = "" then d else x
  | none => d

/-- chat.js `msgKey(role, content, ts)`:
`` (role || "") + "|" + (content || "").slice(0, 120) + "|" + (ts || "") ``. -/
def msgKey (role content : Option String) (ts : Option Nat) : String :=
  jsOrEmpty role ++ "|" ++ strTake 120 (jsOrEmpty content) ++ "|" ++
    (match ts with
     | some t => if t = 0 then "" else toString t
     | none => "")

/-- chat.js `contentKey(role, content)`. -/
def contentKey (role content : Option String) : String :=
  jsOrEmpty role ++ "|" ++ strTake 120 (jsOrEmpty content)

/-- Reading `pendingDedup[k]` as a JS truthiness test: present and non-zero. -/
def lookupTruthy (l : List (String × Nat)) (k : String) : Option Nat :=
  match (l.find? fun p => p.1 == k).map (·.2) with
  | some 0 => none
  | v => v

/-- Assignment `pendingDedup[k] = v` (overwrite or insert). -/
def setAssoc (l : List (String × Nat)) (k : String) (v : Nat) : List (String × Nat) :=
  if l.any (·.1 == k) then l.map fun p => if p.1 == k then (k, v) else p
  else l ++ [(k, v)]

/-- JS `delete pendingDedup[k]`. -/
def removeAssoc (l : List (String × Nat)) (k : String) : List (String × Nat) :=
  l.filter fun p => !(p.1 == k)

/-- chat.js `sendMessage`: trim, bail out on empty, render the local user
message immediately and record the content key with the send time. -/
def sendMessageStatic (now : Nat) (input : String) (s : StaticChatState) : StaticChatState :=
  let text := jsTrim input
  if text = "" then s
  else
    { s with
      rendered := s.rendered ++ [⟨"user", text, none⟩]
      pendingDedup := setAssoc s.pendingDedup (contentKey (some "user") (some text)) now }

/-- What the `session_message` branch renders: `addUserMessage` for a `user`
role, `addAssistantMessage` otherwise. -/
def renderEntry (e : GatewayEvent) : RenderedMsg :=
  if e.role = some "user" then ⟨"user", jsOrEmpty e.content, e.timestamp⟩
  else
    ⟨orTruthyS e.role "assistant",
      jsOrEmpty (orTruthy e.content (orTruthy e.response e.message)), e.timestamp⟩

/-- The `session_message` branch of chat.js `onEvent`: skip if the exact
signature was already seen; suppress an echo whose content key is pending and
younger than 30 000 ms (marking it seen); otherwise drop the stale pending
entry, mark the signature seen and render the message. -/
def onSessionMessage (now : Nat) (e : GatewayEvent) (s : StaticChatState) : StaticChatState :=
  let contentV := orTruthy e.content (orTruthy e.response e.message)
  let key := msgKey e.role contentV e.timestamp
  if s.seenMessages.contains key then s
  else
    let cKey := contentKey e.role contentV
    match lookupTruthy s.pendingDedup cKey with
    | some t0 =>
      if now - t0 < 30000 then { s with seenMessages := addKey key s.seenMessages }
      else
        { s with
          pendingDedup := removeAssoc s.pendingDedup cKey
          seenMessages := addKey key s.seenMessages
          rendered := s.rendered ++ [renderEntry e] }
    | none =>
      { s with
        seenMessages := addKey key s.seenMessages
        rendered := s.rendered ++ [renderEntry e] }

/-- chat.js `tsMs`: missing or zero timestamps map to 0, numeric values below
`1e12` are seconds and are scaled to milliseconds, values at or above `1e12`
are already milliseconds.  (The string branch, which delegates to `Date`
parsing, is outside this model.) -/
def tsMs (v : Option Nat) : Nat :=
  match v with
  | none => 0
  | some n => if n = 0 then 0 else if n < 10 ^ 12 then n * 1000 else n

/-- app.js `sendCommand`: when the socket is not open, show the
`"Not connected"` toast and send nothing; otherwise send one
`client_command` frame. -/
def sendCommandStatic (wsOpen : Bool) (text targetAgent : String) :
    List ClientFrame × List String :=
  if wsOpen = false then ([], ["Not connected"])
  else ([⟨"client_command", text, targetAgent⟩], [])

/-! ### C5 — optimistic echo suppression -/

def c5SendState : ChatState :=
  (sendMessageTsx true 1700000000000 "a" "status?" initChatState).state

def c5EchoLate : GatewayEvent :=
  { type := some "session_message", agent := some "a", role := some "user",
    content := some "status?", timestamp := some 1700000035000 }

/-- Counterexample to C5: in the React chat view, a `session_message` echo of
`"status?"` arriving 35 s after the optimistic send is still suppressed — the
seen-key table has no expiry — so the claimed "NOT suppressed after 35 s"
behaviour fails on chat.tsx. -/
theorem optimistic_echo_counterexample :
    (handleEvent "a" "S" 1700000035000 c5SendState c5EchoLate).liveMessages =
      c5SendState.liveMessages ∧
    c5SendState.liveMessages = [⟨"user", "status?", 1700000000000⟩] := by
  decide

def c5StaticSend : StaticChatState := sendMessageStatic 1700000000000 "status?" staticInit

def c5jsEcho (t : Nat) : GatewayEvent :=
  { type := some "session_message", agent := some "a", role := some "user",
    content := some "status?", timestamp := some t }

/-- C5 as amended: in the static view the 30-second window behaves as
claimed — an echo of `"status?"` 10 s after the send is suppressed and an
echo 35 s after the send is rendered as a new message — while in the React
view the echo is suppressed regardless of elapsed time. -/
theorem optimistic_echo_amended :
    (onSessionMessage 1700000010000 (c5jsEcho 1700000010) c5StaticSend).rendered =
      c5StaticSend.rendered ∧
    (onSessionMessage 1700000035000 (c5jsEcho 1700000035) c5StaticSend).rendered =
      c5StaticSend.rendered ++ [⟨"user", "status?", some 1700000035⟩] ∧
    (handleEvent "a" "S" 1700000035000 c5SendState c5EchoLate).liveMessages =
      c5SendState.liveMessages := by
  decide

/-! ### C8 — timestamp normalisation -/

/-- Counterexample to C8: `tsMs` maps the boundary value `10^12` to itself,
not to `10^12 * 1000`; and chat.tsx `normalizeMessage` performs no
seconds-to-milliseconds conversion at all on numeric timestamps. -/
theorem timestamp_normalization_counterexample :
    tsMs (some (10 ^ 12)) ≠ 10 ^ 12 * 1000 ∧
    (normalizeMessage 0 ⟨some "user", some "hi", some 1700000000⟩).timestamp ≠
      1700000000 * 1000 := by
  decide

/-- C8 as amended: the static view's `tsMs` maps a numeric value at or above
`10^12` to itself and a positive value strictly below `10^12` to a thousand
times itself, so `1700000000` s and `1700000000000` ms normalise to the same
instant; the React view's `normalizeMessage` passes numeric timestamps
through unchanged. -/
theorem timestamp_normalization_amended :
    (∀ v : Nat, 10 ^ 12 ≤ v → tsMs (some v) = v) ∧
    (∀ v : Nat, 0 < v → v < 10 ^ 12 → tsMs (some v) = v * 1000) ∧
    tsMs (some 1700000000) = tsMs (some 1700000000000) ∧
    (∀ (r c : Option String) (t now : Nat),
      (normalizeMessage now ⟨r, c, some t⟩).timestamp = t) := by
  refine ⟨fun v hv => ?_, fun v hv0 hv => ?_, by decide, fun r c t now => rfl⟩
  · simp only [tsMs]
    rw [if_neg (by omega), if_neg (by omega)]
  · simp only [tsMs]
    rw [if_neg (by omega), if_pos hv]

/-- Witness for the amended C8 at concrete inputs on both sides of the
boundary. -/
theorem timestamp_normalization_amended_witness :
    tsMs (some (2 * 10 ^ 12)) = 2 * 10 ^ 12 ∧
    tsMs (some 1700000000) = 1700000000 * 1000 ∧
    (normalizeMessage 7 ⟨some "user", some "hi", some 42⟩).timestamp = 42 :=
  ⟨timestamp_normalization_amended.1 _ (by decide),
    timestamp_normalization_amended.2.1 _ (by decide) (by decide),
    timestamp_normalization_amended.2.2.2 _ _ _ _⟩

/-! ### C9 — send while disconnected -/

/-- Counterexample to C9: the React chat view rejects a send over a closed
socket with no user-visible notice at all (it silently returns), contradicting
"rejected synchronously with a user-visible notice". -/
theorem send_disconnected_counterexample :
    (sendMessageTsx false 0 "a" "hello" initChatState).notices = [] ∧
    (sendMessageTsx false 0 "a" "hello" initChatState).frames = [] := by
  decide

/-- C9 as amended: while the socket is not open, no `client_command` frame is
transmitted and nothing is buffered, queued or retried by either sender; the
static app additionally shows the `"Not connected"` toast, while the React
view rejects silently, leaving the state untouched and the message in the
compose box for a manual resend. -/
theorem send_disconnected_amended (text targetAgent draft : String) (now : Nat)
    (s : ChatState) :
    sendCommandStatic false text targetAgent = ([], ["Not connected"]) ∧
    (sendMessageTsx false now targetAgent draft s).frames = [] ∧
    (sendMessageTsx false now targetAgent draft s).notices = [] ∧
    (sendMessageTsx false now targetAgent draft s).state = s ∧
    (sendMessageTsx false now targetAgent draft s).draft = draft := by
  refine ⟨rfl, ?_, ?_, ?_, ?_⟩ <;> simp [sendMessageTsx]

/-! ### C10 — HTML escaping and the markdown renderer
(chat.tsx `escapeHtml` / `renderMarkdownHtml`; chat.js `renderMarkdown` is the
same pipeline with `rel="noopener"` instead of `rel="noopener noreferrer"`).
Each global regex replace is modelled as a left-to-right scan; the lazy
quantifiers of the source patterns become earliest-match scans. -/

/-- Pass `h.replace(/&/g, "&amp;")`. -/
def replaceAmp : List Char → List Char
  | [] => []
  | c :: rest =>
    if c = '&' then '&' :: 'a' :: 'm' :: 'p' :: ';' :: replaceAmp rest
    else c :: replaceAmp rest

/-- Pass `h.replace(/</g, "&lt;")`. -/
def replaceLt : List Char → List Char
  | [] => []
  | c :: rest =>
    if c = '<' then '&' :: 'l' :: 't' :: ';' :: replaceLt rest
    else c :: replaceLt rest

/-- Pass `h.replace(/>/g, "&gt;")`. -/
def replaceGt : List Char → List Char
  | [] => []
  | c :: rest =>
    if c = '>' then '&' :: 'g' :: 't' :: ';' :: replaceGt rest
    else c :: replaceGt rest

/-- chat.tsx `escapeHtml` (chat.js inlines the same three replaces, ampersand
first): escape `&`, then `<`, then `>`. -/
def escapeHtml (s : String) : String := ⟨replaceGt (replaceLt (replaceAmp s.data))⟩

/-- Regex `\w`. -/
def isWordChar (c : Char) : Bool := c.isAlpha || c.isDigit || c = '_'

/-- Regex `\s` (the escaped ASCII range). -/
def isRegexSpace (c : Char) : Bool :=
  c = ' ' || c = '\t' || c = '\n' || c = '\r' || c = '\x0b' || c = '\x0c'

/-- The backtick character (written by code so that the delimiter never
appears outside a string). -/
def backtickChar : Char := Char.ofNat 96

/-- Split at the first occurrence of `pat`, dropping the occurrence. -/
def splitOnFirst (pat : List Char) : List Char → Option (List Char × List Char)
  | [] => if pat.isPrefixOf ([] : List Char) then some ([], []) else none
  | c :: rest =>
    if pat.isPrefixOf (c :: rest) then some ([], (c :: rest).drop pat.length)
    else
      match splitOnFirst pat rest with
      | some (a, b) => some (c :: a, b)
      | none => none

/-- Code fence contents: `code.replace(/\n$/, "")`. -/
def stripTrailingNl (code : List Char) : List Char :=
  match code.reverse with
  | '\n' :: r => r.reverse
  | _ => code

/-- Replacement template of the fenced-code pass. -/
def codeTemplate (lang code : List Char) : List Char :=
  (if lang.isEmpty then "<pre><code>".data
   else "<pre><code class=\"lang-".data ++ lang ++ "\">".data) ++
  stripTrailingNl code ++ "</code></pre>".data

/-- Pass for ``/```(\w*)\n([\s\S]*?)```/g``. -/
def fencedAux : Nat → List Char → List Char
  | 0, l => l
  | _ + 1, [] => []
  | fuel + 1, c :: rest =>
    if "```".data.isPrefixOf (c :: rest) then
      let afterTicks := (c :: rest).drop 3
      let lang := afterTicks.takeWhile isWordChar
      match afterTicks.dropWhile isWordChar with
      | '\n' :: body =>
        match splitOnFirst "```".data body with
        | some (code, after) => codeTemplate lang code ++ fencedAux fuel after
        | none => c :: fencedAux fuel rest
      | _ => c :: fencedAux fuel rest
    else c :: fencedAux fuel rest

/-- Pass for `` /`([^`\n]+)`/g `` (inline code). -/
def inlineCodeAux : Nat → List Char → List Char
  | 0, l => l
  | _ + 1, [] => []
  | fuel + 1, c :: rest =>
    if c = backtickChar then
      let run := rest.takeWhile fun x => !(x = backtickChar || x = '\n')
      match run, rest.dropWhile (fun x => !(x = backtickChar || x = '\n')) with
      | _ :: _, c2 :: after =>
        if c2 = backtickChar then
          "<code>".data ++ run ++ "</code>".data ++ inlineCodeAux fuel after
        else c :: inlineCodeAux fuel rest
      | _, _ => c :: inlineCodeAux fuel rest
    else c :: inlineCodeAux fuel rest

/-- Lazy scan for `(.+?)` followed by `pat`: at least one character, no
newline, ending at the earliest occurrence of `pat`. -/
def lazyUntil (pat : List Char) : Nat → List Char → Option (List Char × List Char)
  | 0, _ => none
  | _ + 1, [] => none
  | fuel + 1, c :: rest =>
    if c = '\n' then none
    else if pat.isPrefixOf rest then some ([c], rest.drop pat.length)
    else
      match lazyUntil pat fuel rest with
      | some (content, after) => some (c :: content, after)
      | none => none

/-- Pass for `/\*\*(.+?)\*\*/g` (bold). -/
def boldAux : Nat → List Char → List Char
  | 0, l => l
  | _ + 1, [] => []
  | fuel + 1, c :: rest =>
    if "**".data.isPrefixOf (c :: rest) then
      match lazyUntil "**".data rest.length ((c :: rest).drop 2) with
      | some (content, after) =>
        "<strong>".data ++ content ++ "</strong>".data ++ boldAux fuel after
      | none => c :: boldAux fuel rest
    else c :: boldAux fuel rest

/-- Pass for `/\*(.+?)\*/g` (italic). -/
def italicAux : Nat → List Char → List Char
  | 0, l => l
  | _ + 1, [] => []
  | fuel + 1, c :: rest =>
    if c = '*' then
      match lazyUntil "*".data rest.length rest with
      | some (content, after) =>
        "<em>".data ++ content ++ "</em>".data ++ italicAux fuel after
      | none => c :: italicAux fuel rest
    else c :: italicAux fuel rest

/-- Line decomposition for the `^…$` multiline patterns. -/
def linesOf : List Char → List (List Char)
  | [] => [[]]
  | c :: rest =>
    if c = '\n' then [] :: linesOf rest
    else
      match linesOf rest with
      | ln :: rest' => (c :: ln) :: rest'
      | [] => [[c]]

/-- Apply a per-line rewrite and re-join with newlines. -/
def mapLines (f : List Char → List Char) (l : List Char) : List Char :=
  List.intercalate ['\n'] ((linesOf l).map f)

/-- Line rewrite for `/^### (.+)$/gm`. -/
def h4Line (line : List Char) : List Char :=
  if "### ".data.isPrefixOf line && !(line.drop 4).isEmpty then
    "<h4>".data ++ line.drop 4 ++ "</h4>".data
  else line

/-- Line rewrite for `/^## (.+)$/gm`. -/
def h3Line (line : List Char) : List Char :=
  if "## ".data.isPrefixOf line && !(line.drop 3).isEmpty then
    "<h3>".data ++ line.drop 3 ++ "</h3>".data
  else line

/-- Line rewrite for `/^# (.+)$/gm`. -/
def h2Line (line : List Char) : List Char :=
  if "# ".data.isPrefixOf line && !(line.drop 2).isEmpty then
    "<h2>".data ++ line.drop 2 ++ "</h2>".data
  else line

/-- A line matching `- .+`. -/
def isUlLine (line : List Char) : Bool :=
  "- ".data.isPrefixOf line && !(line.drop 2).isEmpty

/-- Replacement for one unordered-list block. -/
def ulWrap (block : List (List Char)) : List Char :=
  "<ul>".data ++
    (block.map fun line => "<li>".data ++ line.drop 2 ++ "</li>".data).flatten ++
  "</ul>".data

/-- Group maximal runs of `- ` lines into `<ul>` blocks
(`/(^|\n)(- .+(?:\n- .+)*)/g`). -/
def groupUl : Nat → List (List Char) → List (List Char)
  | 0, ls => ls
  | _ + 1, [] => []
  | fuel + 1, line :: rest =>
    if isUlLine line then
      ulWrap ((line :: rest).takeWhile isUlLine) ::
        groupUl fuel ((line :: rest).dropWhile isUlLine)
    else line :: groupUl fuel rest

def ulPass (l : List Char) : List Char :=
  List.intercalate ['\n'] (groupUl (linesOf l).length (linesOf l))

/-- A line matching `\d+\. .+`. -/
def isOlLine (line : List Char) : Bool :=
  let rest := line.dropWhile Char.isDigit
  !(line.takeWhile Char.isDigit).isEmpty && ". ".data.isPrefixOf rest &&
    !(rest.drop 2).isEmpty

/-- List-item content: `line.replace(/^\d+\.\s*/, "")`. -/
def stripOlPrefix (line : List Char) : List Char :=
  if (line.takeWhile Char.isDigit).isEmpty then line
  else
    match line.dropWhile Char.isDigit with
    | '.' :: r => r.dropWhile isRegexSpace
    | _ => line

/-- Replacement for one ordered-list block. -/
def olWrap (block : List (List Char)) : List Char :=
  "<ol>".data ++
    (block.map fun line => "<li>".data ++ stripOlPrefix line ++ "</li>".data).flatten ++
  "</ol>".data

/-- Group maximal runs of numbered lines into `<ol>` blocks
(`/(^|\n)(\d+\. .+(?:\n\d+\. .+)*)/g`). -/
def groupOl : Nat → List (List Char) → List (List Char)
  | 0, ls => ls
  | _ + 1, [] => []
  | fuel + 1, line :: rest =>
    if isOlLine line then
      olWrap ((line :: rest).takeWhile isOlLine) ::
        groupOl fuel ((line :: rest).dropWhile isOlLine)
    else line :: groupOl fuel rest

def olPass (l : List Char) : List Char :=
  List.intercalate ['\n'] (groupOl (linesOf l).length (linesOf l))

/-- Replacement template of the link pass. -/
def linkTemplate (txt url : List Char) : List Char :=
  "<a href=\"".data ++ url ++ "\" target=\"_blank\" rel=\"noopener noreferrer\">".data ++
    txt ++ "</a>".data

/-- Pass for `/\[([^\]]+)\]\(([^)]+)\)/g` (links). -/
def linkAux : Nat → List Char → List Char
  | 0, l => l
  | _ + 1, [] => []
  | fuel + 1, c :: rest =>
    if c = '[' then
      match rest.takeWhile (· ≠ ']'), rest.dropWhile (· ≠ ']') with
      | txt@(_ :: _), ']' :: '(' :: r3 =>
        (match r3.takeWhile (· ≠ ')'), r3.dropWhile (· ≠ ')') with
         | url@(_ :: _), ')' :: after => linkTemplate txt url ++ linkAux fuel after
         | _, _ => c :: linkAux fuel rest)
      | _, _ => c :: linkAux fuel rest
    else c :: linkAux fuel rest

/-- Line rewrite for `/^---$/gm`. -/
def hrLine (line : List Char) : List Char :=
  if line = "---".data then "<hr>".data else line

/-- JS `html.split(/(<pre>[\s\S]*?<\/pre>)/)` flattened to the parts list. -/
def splitPreAux : Nat → List Char → List (List Char)
  | 0, l => [l]
  | fuel + 1, l =>
    match splitOnFirst "<pre>".data l with
    | none => [l]
    | some (before, rest) =>
      match splitOnFirst "</pre>".data rest with
      | none => [l]
      | some (mid, after) =>
        before :: ("<pre>".data ++ mid ++ "</pre>".data) :: splitPreAux fuel after

/-- Newline conversion of one part: parts that start with `<pre>` are kept. -/
def brOne (part : List Char) : List Char :=
  if "<pre>".data.isPrefixOf part then part
  else (part.map fun c => if c = '\n' then "<br>".data else [c]).flatten

/-- Final pass: `\n` → `<br>` outside `<pre>` blocks. -/
def brPass (l : List Char) : List Char :=
  ((splitPreAux l.length l).map brOne).flatten

/-- The whole markdown pipeline of `renderMarkdownHtml` after the escaping
step, in source order: fenced code, inline code, bold, italic, headings,
unordered and ordered lists, links, horizontal rules, line breaks. -/
def markdownFromEscaped (l : List Char) : List Char :=
  let l1 := fencedAux l.length l
  let l2 := inlineCodeAux l1.length l1
  let l3 := boldAux l2.length l2
  let l4 := italicAux l3.length l3
  let l5 := mapLines h4Line l4
  let l6 := mapLines h3Line l5
  let l7 := mapLines h2Line l6
  let l8 := ulPass l7
  let l9 := olPass l8
  let l10 := linkAux l9.length l9
  let l11 := mapLines hrLine l10
  brPass l11

/-- chat.tsx `renderMarkdownHtml`: empty input renders empty; otherwise the
whole source is escaped first and only then run through the markdown passes. -/
def renderMarkdownHtml (src : String) : String :=
  if src = "" then "" else ⟨markdownFromEscaped (escapeHtml src).data⟩

theorem lt_not_mem_replaceLt (l : List Char) : '<' ∉ replaceLt l := by
  induction l with
  | nil => simp [replaceLt]
  | cons c rest ih =>
    rw [replaceLt]
    by_cases hc : c = '<'
    · simp [hc, ih]
    · simp [hc, ih]
      exact fun h => hc h.symm

theorem lt_not_mem_replaceGt (l : List Char) (h : '<' ∉ l) : '<' ∉ replaceGt l := by
  induction l with
  | nil => simp [replaceGt]
  | cons c rest ih =>
    rw [replaceGt]
    have hc' : '<' ≠ c := fun hx => h (hx ▸ List.mem_cons_self c rest)
    have hrest : '<' ∉ rest := fun hx => h (List.mem_cons_of_mem c hx)
    by_cases hc : c = '>'
    · simp [hc, ih hrest]
    · simp [hc, ih hrest]
      exact fun hx => hc' hx

theorem gt_not_mem_replaceGt (l : List Char) : '>' ∉ replaceGt l := by
  induction l with
  | nil => simp [replaceGt]
  | cons c rest ih =>
    rw [replaceGt]
    by_cases hc : c = '>'
    · simp [hc, ih]
    · simp [hc, ih]
      exact fun h => hc h.symm

/-- C10.  The escaping step eliminates every `<` and every `>` (ampersand is
escaped first, and the entities it introduces contain no angle bracket), and
the markdown renderer applies that escaping to the whole source before any of
the HTML-constructing passes run — so message content can never contribute an
unescaped tag. -/
theorem escape_before_render (src : String) :
    ('<' ∉ (escapeHtml src).data ∧ '>' ∉ (escapeHtml src).data) ∧
    renderMarkdownHtml src =
      (if src = "" then "" else ⟨markdownFromEscaped (escapeHtml src).data⟩) :=
  ⟨⟨lt_not_mem_replaceGt _ (lt_not_mem_replaceLt _), gt_not_mem_replaceGt _⟩, rfl⟩

/-! ### Static view session router and session switch
(chat.js `onEvent` routing prefix 705-746, `loadSession` 422-432,
`showOtherSessionBanner` / `hideOtherSessionBanner` 235-248) -/

/-- The other-session banner of the static view: visibility, the label text,
and the delay of the pending auto-hide timer (`none` when no timer pends;
30 s after a show, 5 s after a terminal foreign-session event). -/
structure StaticBanner where
  visible : Bool
  label : String
  hideDelay : Option Nat
deriving DecidableEq, Repr

/-- chat.js `showOtherSessionBanner(sessionId, detail)`: default and truncate
the id, compose the label, show the banner, (re)arm the 30-second
auto-hide. -/
def showBanner (sessionId detail : String) : StaticBanner :=
  ⟨true,
    "Agent is working in: " ++
      (if strLen (if sessionId = "" then "another session" else sessionId) > 30 then
        strTake 28 (if sessionId = "" then "another session" else sessionId) ++ "…"
      else if sessionId = "" then "another session" else sessionId) ++
      (if detail = "" then "" else " — " ++ detail),
    some 30000⟩

/-- chat.js `hideOtherSessionBanner`. -/
def hideBanner (b : StaticBanner) : StaticBanner :=
  { b with visible := false, hideDelay := none }

/-- The per-view state of the static chat touched by the session router and
`loadSession`: the dedup state, the viewed (`currentSessionId`) and
active-server session ids, the banner, the typing indicator, the streaming
accumulator (`streamingText` plus whether `streamingDiv` is non-null),
whether an activity block is open, and how many session-list refetches have
been issued. -/
structure StaticViewState where
  dedup : StaticChatState
  currentSessionId : Option String
  activeServerSession : Option String
  banner : StaticBanner
  typingVisible : Bool
  typingLabel : String
  streamingText : String
  streamingDivOpen : Bool
  activityBlockOpen : Bool
  sessionListRefetches : Nat
deriving DecidableEq, Repr

/-- The `detail` string computed in the static view's foreign-session branch
(only `typing_start`, `tool_start` and `stream_delta` reach it). -/
def foreignDetail (t : String) (e : GatewayEvent) : String :=
  if t = "tool_start" then "running " ++ orTruthyS e.tool "tool"
  else if t = "stream_delta" then "responding…"
  else "thinking…"

/-- The routing prefix of chat.js `onEvent` (lines 705-746): the `agent_list`
early return, the agent filter, and the complete foreign-session branch.
`none` means the event falls through to the same-session handlers from line
748 onward (the `session_message` one is `onSessionMessage`). -/
def routeEventStatic (chatAgent : String) (v : StaticViewState) (e : GatewayEvent) :
    Option StaticViewState :=
  let t := e.type.getD ""
  if t = "agent_list" ∨ t = "list_agents" then some v
  else if (orTruthy e.agent e.agent_id).getD "" ≠ chatAgent then some v
  else if (orTruthy e.session e.session_id).getD "" ≠ "" ∧
      v.currentSessionId.getD "" ≠ "" ∧
      (orTruthy e.session e.session_id).getD "" ≠ v.currentSessionId.getD "" then
    if t = "typing_start" ∨ t = "tool_start" ∨ t = "stream_delta" then
      some { v with
        activeServerSession := some ((orTruthy e.session e.session_id).getD "")
        banner := showBanner ((orTruthy e.session e.session_id).getD "") (foreignDetail t e) }
    else if t = "typing_stop" ∨ (t = "stream_delta" ∧ e.done = some true) then
      some { v with
        activeServerSession := some ((orTruthy e.session e.session_id).getD "")
        banner := { v.banner with hideDelay := some 5000 } }
    else if t = "turn_receipt" then
      some { v with
        activeServerSession := some ((orTruthy e.session e.session_id).getD "")
        banner := { v.banner with hideDelay := some 5000 }
        sessionListRefetches := v.sessionListRefetches + 1 }
    else
      some { v with
        activeServerSession := some ((orTruthy e.session e.session_id).getD "") }
  else none

/-- The banner effect of the static foreign-session branch, by event kind:
`typing_start` / `tool_start` / `stream_delta` show it with a kind-derived
detail; `typing_stop` and `turn_receipt` merely arm the 5-second auto-hide;
every other kind leaves it alone. -/
def staticForeignBanner (t fs : String) (e : GatewayEvent) (b : StaticBanner) : StaticBanner :=
  if t = "typing_start" ∨ t = "tool_start" ∨ t = "stream_delta" then
    showBanner fs (foreignDetail t e)
  else if t = "typing_stop" ∨ (t = "stream_delta" ∧ e.done = some true) then
    { b with hideDelay := some 5000 }
  else if t = "turn_receipt" then { b with hideDelay := some 5000 }
  else b

/-- The synchronous part of chat.js `loadSession(sid)`: clear the message
area and both dedup tables, set the viewed session id, hide the banner, and
render the loading notice.  The fetch continuation only renders the fetched
transcript and receipts; neither part touches the typing indicator, the
streaming accumulator, the activity block or the active-server-session
record. -/
def loadSessionStart (sid : String) (v : StaticViewState) : StaticViewState :=
  { v with
    dedup := ⟨[⟨"system", "Loading session: " ++ sid ++ "…", none⟩], [], []⟩
    currentSessionId := some sid
    banner := hideBanner v.banner }

def c2ViewEx : StaticViewState :=
  { dedup := staticInit, currentSessionId := some "A", activeServerSession := none,
    banner := ⟨false, "", none⟩, typingVisible := false, typingLabel := "Thinking…",
    streamingText := "", streamingDivOpen := false, activityBlockOpen := false,
    sessionListRefetches := 0 }

def c2MsgEvent : GatewayEvent :=
  { type := some "session_message", agent := some "a", session := some "B",
    role := some "user", content := some "hi", timestamp := some 7 }

/-- Counterexample to C2: in the static view, a `session_message` for the
selected agent tagged with session `"B"` while session `"A"` is viewed does
NOT set the other-session banner (no branch of the router shows it for that
kind), yet it does change state beyond the banner — the active-server-session
record moves from `none` to `"B"` — so "the only state change is the
other-session banner being set to that session id with a human-readable
detail" fails on chat.js. -/
theorem session_isolation_counterexample :
    routeEventStatic "a" c2ViewEx c2MsgEvent =
      some { c2ViewEx with activeServerSession := some "B" } ∧
    c2ViewEx.banner.visible = false ∧ c2ViewEx.activeServerSession = none := by
  decide

/-- C2 as amended.  In the React view an event for the selected agent tagged
with a session other than the viewed one changes nothing but the
other-session banner, set to that session id with a kind-derived detail.  In
the static view such an event is likewise never injected into the viewed
transcript and leaves the dedup, typing, streaming, activity and
viewed-session state untouched, but it always records the event's session as
the active server session, the banner is shown with a kind-derived detail
only for `typing_start` / `tool_start` / `stream_delta`, while `typing_stop`
and `turn_receipt` merely arm a 5-second banner auto-hide — `turn_receipt`
additionally triggering a session-list refetch — and any other kind changes
the active-session record alone. -/
theorem session_isolation_amended
    (A S : String) (now : Nat) (s : ChatState) (e : GatewayEvent) (t es : String)
    (htype : e.type = some t) (ht : t ≠ "")
    (hlist : ¬ (t = "agent_list" ∧ e.agents.isSome = true))
    (hagent : (e.agent <|> e.agent_id).getD "" = A)
    (hses : (e.session <|> e.session_id).getD "" = es) (hes : es ≠ "")
    (hcur : S ≠ "") (hne : es ≠ S)
    (v : StaticViewState) (f : GatewayEvent) (fs cur : String)
    (hflist : f.type.getD "" ≠ "agent_list" ∧ f.type.getD "" ≠ "list_agents")
    (hfagent : (orTruthy f.agent f.agent_id).getD "" = A)
    (hfses : (orTruthy f.session f.session_id).getD "" = fs) (hfs : fs ≠ "")
    (hvcur : v.currentSessionId.getD "" = cur) (hcurne : cur ≠ "") (hfne : fs ≠ cur) :
    handleEvent A S now s e =
      { s with otherSession := some (OtherBanner.mk es
          (otherSessionDetail t e) (otherSessionTerminal t e)) } ∧
    routeEventStatic A v f =
      some { v with
        activeServerSession := some fs
        banner := staticForeignBanner (f.type.getD "") fs f v.banner
        sessionListRefetches := v.sessionListRefetches +
          (if f.type.getD "" = "turn_receipt" then 1 else 0) } := by
  refine ⟨session_isolation A S now s e t es htype ht hlist hagent hses hes hcur hne, ?_⟩
  simp only [routeEventStatic]
  rw [if_neg (not_or.mpr hflist), if_neg (not_not_intro hfagent), hfses, hvcur,
    if_pos ⟨hfs, hcurne, hfne⟩, staticForeignBanner]
  by_cases h1 : f.type.getD "" = "typing_start" ∨ f.type.getD "" = "tool_start" ∨
      f.type.getD "" = "stream_delta"
  · have h3 : ¬ f.type.getD "" = "turn_receipt" := by
      rcases h1 with h | h | h <;> simp [h]
    rw [if_pos h1, if_pos h1, if_neg h3]
    rfl
  · rw [if_neg h1, if_neg h1]
    by_cases h2 : f.type.getD "" = "typing_stop" ∨
        (f.type.getD "" = "stream_delta" ∧ f.done = some true)
    · have h3 : ¬ f.type.getD "" = "turn_receipt" := by
        rcases h2 with h | h
        · simp [h]
        · simp [h.1]
      rw [if_pos h2, if_pos h2, if_neg h3]
      rfl
    · rw [if_neg h2, if_neg h2]
      by_cases h3 : f.type.getD "" = "turn_receipt"
      · rw [if_pos h3, if_pos h3, if_pos h3]
      · rw [if_neg h3, if_neg h3, if_neg h3]
        rfl

def c2ToolEvent : GatewayEvent :=
  { type := some "tool_start", agent := some "a", session := some "B", tool := some "grep" }

/-- Witness for the amended C2: a foreign-session `stream_delta` in the React
view and a foreign-session `tool_start` in the static view, at concrete
states. -/
theorem session_isolation_amended_witness :
    handleEvent "a" "A" 5 initChatState c2Event =
      { initChatState with otherSession := some (OtherBanner.mk "B"
          (otherSessionDetail "stream_delta" c2Event)
          (otherSessionTerminal "stream_delta" c2Event)) } ∧
    routeEventStatic "a" c2ViewEx c2ToolEvent =
      some { c2ViewEx with
        activeServerSession := some "B"
        banner := staticForeignBanner (c2ToolEvent.type.getD "") "B" c2ToolEvent c2ViewEx.banner
        sessionListRefetches := c2ViewEx.sessionListRefetches +
          (if c2ToolEvent.type.getD "" = "turn_receipt" then 1 else 0) } :=
  session_isolation_amended "a" "A" 5 initChatState c2Event "stream_delta" "B"
    rfl (by decide) (by decide) rfl rfl (by decide) (by decide) (by decide)
    c2ViewEx c2ToolEvent "B" "A"
    (by decide) rfl rfl (by decide) rfl (by decide) (by decide)

def c6Before : StaticViewState :=
  { dedup := ⟨[⟨"user", "hi", none⟩], ["user|hi|"], [("user|hi", 1000)]⟩,
    currentSessionId := some "X", activeServerSession := some "X",
    banner := ⟨false, "", none⟩, typingVisible := true, typingLabel := "Thinking…",
    streamingText := "partial reply", streamingDivOpen := true,
    activityBlockOpen := true, sessionListRefetches := 0 }

/-- Counterexample to C6: switching the static view from session `X` to `Y`
while a reply is streaming (chat.js `loadSession`) leaves the typing
indicator visible, the partial streaming text and its element reference, and
the open activity block all untouched — live per-session state does not all
return to its initial empty value. -/
theorem session_switch_reset_counterexample :
    (loadSessionStart "Y" c6Before).typingVisible = true ∧
    (loadSessionStart "Y" c6Before).streamingText = "partial reply" ∧
    (loadSessionStart "Y" c6Before).streamingDivOpen = true ∧
    (loadSessionStart "Y" c6Before).activityBlockOpen = true := by
  decide

/-- C6 as amended.  In the React view, whenever the selected agent or the
viewed session changes, every piece of per-session state — live messages,
receipts, activity items, both stream buffers and the revealed length, the
seen-key table, the typing indicator and label, the pending finalization and
the other-session banner — returns to its initial value.  In the static view,
`loadSession` clears the rendered transcript (replacing it with a loading
notice) and both dedup tables, reassigns the viewed session id and hides the
banner, but leaves the typing indicator, the accumulated streaming text, the
streaming and activity element references and the active-server-session
record untouched. -/
theorem session_switch_reset_amended (s : ChatState) (v : StaticViewState) (sid : String) :
    resetSessionState s = initChatState ∧
    loadSessionStart sid v =
      { v with
        dedup := ⟨[⟨"system", "Loading session: " ++ sid ++ "…", none⟩], [], []⟩
        currentSessionId := some sid
        banner := hideBanner v.banner } ∧
    (loadSessionStart sid v).typingVisible = v.typingVisible ∧
    (loadSessionStart sid v).typingLabel = v.typingLabel ∧
    (loadSessionStart sid v).streamingText = v.streamingText ∧
    (loadSessionStart sid v).streamingDivOpen = v.streamingDivOpen ∧
    (loadSessionStart sid v).activityBlockOpen = v.activityBlockOpen ∧
    (loadSessionStart sid v).activeServerSession = v.activeServerSession :=
  ⟨rfl, rfl, rfl, rfl, rfl, rfl, rfl, rfl⟩

end Pinchy
